import Mathlib

/-!
# Verification of the Suna mobile client session/connection manager

Shallow embedding of the hardened SunaContext provider
(src/unnamed/part_001, lines 1-327): the connection probe
(checkConnection), session creation (newChat), the message log
(addMessage), config sanitization (getBaseUrl) and the message
dispatch (sendMessage).

Modelling conventions:
* React state (messages, currentChatId, isLoading, isConnected,
  connectionStatus, config) is a record SunaState; every setter call and
  every functional update is applied synchronously to the evolving state.
* A closure in the source reads the render-time snapshot of a state
  variable; a call entered from a rendered state therefore reads the
  entry value of a variable for every plain (non-setter) access, even
  after a setter ran during the call.  This matters in sendMessage,
  where the URL interpolates the currentChatId captured at entry.
* Network I/O is replaced by an explicit environment choosing the
  outcome of each fetch (a response with a parsed body, a body-parse
  failure, an abort when the timeout fires, or a network error), and the
  calls actually issued are recorded in a Request trace.
* Message ids (a timestamp plus a random suffix in the source) are
  modelled by a fresh-id counter nextId; Alert.alert and console.error
  have no observable effect on the modelled state and are dropped.
-/

/-- Message roles, from the Message interface of the source: user,
assistant, system or error. -/
inductive Role
  | user
  | assistant
  | system
  | error
  deriving DecidableEq, Repr

/-- One entry of the message log.  The string id of the source (timestamp
plus random suffix) is modelled by a fresh natural; the timestamp is
dropped. -/
structure Message where
  id : Nat
  role : Role
  content : String
  deriving DecidableEq, Repr

/-- Connection configuration, from the SunaConfig interface. -/
structure SunaConfig where
  serverUrl : String
  mobilePort : String
  autoConnect : Bool
  deriving DecidableEq, Repr

/-- React state of the provider component. -/
structure SunaState where
  config : SunaConfig
  isConnected : Bool
  connectionStatus : String
  messages : List Message
  currentChatId : Option String
  isLoading : Bool
  nextId : Nat
  deriving DecidableEq, Repr

/-- Host sanitization, from `config.serverUrl.replace(/[^a-zA-Z0-9.-]/g,
"")`: keep only ASCII letters, digits, dot and hyphen. -/
def cleanServer (s : String) : String :=
  String.mk (s.data.filter fun c => c.isAlphanum || c = '.' || c = '-')

/-- Port sanitization, from `config.mobilePort.replace(/[^0-9]/g, "")`:
keep only ASCII digits. -/
def cleanPort (s : String) : String :=
  String.mk (s.data.filter fun c => c.isDigit)

/-- Base-URL construction (getBaseUrl): sanitize host and port; `none`
models the thrown "Invalid server configuration" error when either
sanitized value is the empty string (falsy). -/
def getBaseUrl (c : SunaConfig) : Option String :=
  let cleanServerUrl := cleanServer c.serverUrl
  let cleanPortStr := cleanPort c.mobilePort
  if cleanServerUrl.isEmpty || cleanPortStr.isEmpty then none
  else some ("http://" ++ cleanServerUrl ++ ":" ++ cleanPortStr)

/-- White space trimmed by the JavaScript trim method, restricted to the
ASCII white-space and line-terminator characters. -/
def jsWhitespace (c : Char) : Bool :=
  c = ' ' || c = '\t' || c = '\n' || c = '\r' || c = '\x0b' || c = '\x0c'

/-- Trimming, from `message.trim()`. -/
def jsTrim (s : String) : String :=
  String.mk (((s.data.dropWhile jsWhitespace).reverse.dropWhile
    jsWhitespace).reverse)

/-- Log append (addMessage): build a message with a fresh id and append it
via `setMessages(prev => [...prev, message])`.  In the source addMessage
has no return statement, so its JavaScript value is undefined — see
responseCallback. -/
def addMessage (role : Role) (content : String) (st : SunaState) : SunaState :=
  { st with
    messages := st.messages ++ [{ id := st.nextId, role := role, content := content }]
    nextId := st.nextId + 1 }

/-- Network calls a run can issue, recording the (possibly stale) chat id
interpolated into the URL and the request body where relevant. -/
inductive Request
  | newChatReq
  | sendReq (chatId : Option String) (body : String)
  | messagesReq (chatId : Option String)
  deriving DecidableEq, Repr

/-- Outcome of the GET /api/health transport check: a response with its
ok flag, an abort (the 5000 ms timeout fired), or a network error. -/
inductive HealthNet
  | resp (ok : Bool)
  | timeout
  | netFail
  deriving DecidableEq, Repr

/-- Outcome of the GET /api/suna/health agent check.  The source never
reads the ok flag of this response, so the HTTP status is irrelevant;
`resp status` is a response whose body parsed, carrying the optional
status field (`none` = field absent), `respBadJson` a response whose
json() call threw. -/
inductive SunaHealthNet
  | resp (status : Option String)
  | respBadJson
  | timeout
  | netFail
  deriving DecidableEq, Repr

/-- Fetch outcomes of one connection probe. -/
structure ProbeEnv where
  health : HealthNet
  suna : SunaHealthNet
  deriving DecidableEq, Repr

/-- Catch handler of the probe: `setIsConnected(false)` and
`setConnectionStatus("Disconnected")`. -/
def setDisconnected (st : SunaState) : SunaState :=
  { st with isConnected := false, connectionStatus := "Disconnected" }

/-- Connection probe (checkConnection): set status "Connecting...", run
the transport health check, and on success the agent health check; every
thrown error — invalid config, fetch failure, non-ok transport response,
agent fetch failure or agent body-parse failure — lands in the single
catch handler, which sets "Disconnected". -/
def checkConnection (env : ProbeEnv) (st : SunaState) : SunaState :=
  let st1 := { st with connectionStatus := "Connecting..." }
  match getBaseUrl st1.config with
  | none => setDisconnected st1
  | some _ =>
    match env.health with
    | .timeout => setDisconnected st1
    | .netFail => setDisconnected st1
    | .resp false => setDisconnected st1
    | .resp true =>
      let st2 := { st1 with isConnected := true, connectionStatus := "Connected" }
      match env.suna with
      | .timeout => setDisconnected st2
      | .netFail => setDisconnected st2
      | .respBadJson => setDisconnected st2
      | .resp status =>
        if status = some "connected" then
          { st2 with connectionStatus := "Connected to Suna" }
        else
          { st2 with connectionStatus := "Mobile connected, Suna offline" }

/-- Outcome of the POST /api/chat/new fetch: a 2xx response with parsed
body carrying the optional chat_id field, a 2xx response whose json()
call threw, a non-2xx response, an abort (10000 ms timeout), or a network
error. -/
inductive NewChatNet
  | ok (chatId : Option String)
  | okBadJson
  | httpError
  | timeout
  | netFail
  deriving DecidableEq, Repr

/-- Session creation (newChat): on a 2xx response, set the chat id from
the chat_id field of the body, clear the log and append the
"New conversation started!" system notice; every failure (invalid
config, non-ok response via the thrown "Failed to start new chat" error,
body-parse failure, timeout, network error) is caught and only alerts,
leaving the state unchanged. -/
def newChat (net : NewChatNet) (st : SunaState) : SunaState :=
  match getBaseUrl st.config with
  | none => st
  | some _ =>
    match net with
    | .ok chatId =>
        addMessage .system "New conversation started!"
          { st with currentChatId := chatId, messages := [] }
    | .okBadJson => st
    | .httpError => st
    | .timeout => st
    | .netFail => st

/-- Outcome of the send POST.  On a 2xx response the body is never read;
on a non-2xx response the source parses an error body (`errField` is its
optional error field) or falls back to a literal body whose error field
is "Server error" when parsing throws. -/
inductive SendNet
  | ok
  | httpError (errField : Option String)
  | httpErrorBadJson
  | timeout
  | netFail
  deriving DecidableEq, Repr

/-- Outcome of the deferred messages fetch: a response whose body parsed
(carrying the role/content pairs of the messages array; an absent
messages field behaves exactly like the empty list, since both make the
last-element lookup yield undefined), a body-parse failure, an abort
(10000 ms timeout), or a network error. -/
inductive MsgsNet
  | ok (msgs : List (String × String))
  | okBadJson
  | timeout
  | netFail
  deriving DecidableEq, Repr

/-- Network outcomes one dispatch can consume: the lazy newChat, the send
POST, and the deferred messages fetch. -/
structure SendEnv where
  newChatNet : NewChatNet
  sendNet : SendNet
  msgsNet : MsgsNet
  deriving DecidableEq, Repr

/-- Result classification of a dispatch: rejected by the connectivity
guard, rejected by a validation check, terminated in the send phase (send
fetch failed or returned non-2xx), or accepted (ok response), having
appended the "Suna is thinking..." placeholder and scheduled the
response callback. -/
inductive DispatchResult
  | rejectedNotConnected
  | rejectedEmpty
  | rejectedTooLong
  | failed
  | awaiting
  deriving DecidableEq, Repr

/-- Fallback choice from `errorData.error || "Failed to send message"`:
the field is used unless it is falsy (absent or the empty string). -/
def jsOrElse (v : Option String) (fallback : String) : String :=
  match v with
  | some s => if s = "" then fallback else s
  | none => fallback

/-- Branch of sendMessage on the outcome of the send POST (the fetch has
been issued at this point, whatever its outcome), factored out so proofs
can reuse it: on an ok response append the placeholder and await the
callback; on a non-2xx response, an abort or a network error append the
corresponding error message and clear the busy flag. -/
def sendOutcome (net : SendNet) (st2 : SunaState) :
    SunaState × DispatchResult :=
  match net with
  | .ok =>
    (addMessage .system "Suna is thinking..." st2, .awaiting)
  | .httpError errField =>
    ({ addMessage .error (jsOrElse errField "Failed to send message") st2 with
        isLoading := false }, .failed)
  | .httpErrorBadJson =>
    ({ addMessage .error "Server error" st2 with isLoading := false }, .failed)
  | .timeout =>
    ({ addMessage .error "Request timed out" st2 with isLoading := false }, .failed)
  | .netFail =>
    ({ addMessage .error "Failed to send message" st2 with isLoading := false },
     .failed)

/-- Lazy session creation step of sendMessage: the entry state, with
newChat run on it when the chat id captured at entry is null
(`if (!currentChatId) await newChat()`). -/
def lazyState (env : SendEnv) (st : SunaState) : SunaState :=
  match st.currentChatId with
  | none => newChat env.newChatNet st
  | some _ => st

/-- Guarded send phase of sendMessage (everything before the setTimeout
callback).  Returns the state, the requests issued, and how the phase
ended.  currentChatId is read from the entry state throughout — the
snapshot captured by the closure — so even when the lazy newChat stores a
fresh id, the send URL still interpolates the stale entry value.  The
lazy newChat issues its request exactly when the chat id is null and the
base URL construction inside newChat succeeded. -/
def sendPhase (env : SendEnv) (message : String) (st : SunaState) :
    SunaState × List Request × DispatchResult :=
  if st.isConnected = false then
    (st, [], .rejectedNotConnected)
  else if (jsTrim message).isEmpty then
    (st, [], .rejectedEmpty)
  else if 10000 < message.length then
    (st, [], .rejectedTooLong)
  else
    let chatId0 := st.currentChatId
    let st1 := lazyState env st
    let tr1 : List Request :=
      match chatId0, getBaseUrl st.config with
      | none, some _ => [Request.newChatReq]
      | _, _ => []
    let st2 := { addMessage .user message st1 with isLoading := true }
    match getBaseUrl st2.config with
    | none =>
      -- getBaseUrl throws inside the try: caught, generic failure appended
      ({ addMessage .error "Failed to send message" st2 with isLoading := false },
       tr1, .failed)
    | some _ =>
      ((sendOutcome env.sendNet st2).1,
       tr1 ++ [Request.sendReq chatId0 (jsTrim message)],
       (sendOutcome env.sendNet st2).2)

/-- State transformation of the deferred response callback, per outcome of
the messages fetch.

In the source, `const loadingId = addMessage(...)` binds the return value
of addMessage, but addMessage has no return statement, so loadingId is
undefined, and the removal step
`setMessages(prev => prev.filter(msg => msg.id !== loadingId.toString()))`
evaluates toString() on undefined, which throws a TypeError on the first
element the filter visits — before removing anything.  With updaters
applied synchronously, this exception lands in the catch handler of the
callback, which appends "Failed to get response"; only when the log is
empty does the filter never invoke its predicate, letting the
last-assistant-message logic below it run.  Either way no message is ever
removed. -/
def responseCallbackState (net : MsgsNet) (st : SunaState) : SunaState :=
  match net with
  | .timeout =>
    { addMessage .error "Response timed out" st with isLoading := false }
  | .netFail =>
    { addMessage .error "Failed to get response" st with isLoading := false }
  | .okBadJson =>
    { addMessage .error "Failed to get response" st with isLoading := false }
  | .ok msgs =>
    if st.messages.isEmpty then
      -- filter never calls its predicate; proceed to the last-message logic
      let st1 := { st with messages := [] }
      let st2 :=
        match msgs.getLast? with
        | some (role, content) =>
          if role = "assistant" then addMessage .assistant content st1
          else addMessage .assistant "Response received from Suna." st1
        | none => addMessage .assistant "Response received from Suna." st1
      { st2 with isLoading := false }
    else
      -- the toString() call on undefined throws: caught, nothing removed
      { addMessage .error "Failed to get response" st with isLoading := false }

/-- Deferred response callback, scheduled by setTimeout with a 2000 ms
settling delay.  `chatId0` is the chat id captured by the closure at
dispatch entry — the URL of the messages fetch uses it, not the possibly
updated id in the state.  Whatever the outcome, the single messages fetch
was issued whenever the base URL was constructed. -/
def responseCallback (net : MsgsNet) (chatId0 : Option String)
    (st : SunaState) : SunaState × List Request :=
  match getBaseUrl st.config with
  | none =>
    -- getBaseUrl throws inside the try: caught as a non-abort error
    ({ addMessage .error "Failed to get response" st with isLoading := false }, [])
  | some _ =>
    (responseCallbackState net st, [Request.messagesReq chatId0])

/-- Full sendMessage dispatch: the guarded send phase, then — when the
send was accepted — the deferred response callback, whose closure uses
the chat id captured at entry. -/
def sendMessage (env : SendEnv) (message : String) (st : SunaState) :
    SunaState × List Request × DispatchResult :=
  let p := sendPhase env message st
  match p.2.2 with
  | .awaiting =>
    ((responseCallback env.msgsNet st.currentChatId p.1).1,
     p.2.1 ++ (responseCallback env.msgsNet st.currentChatId p.1).2,
     .awaiting)
  | r => (p.1, p.2.1, r)

/-- Shipped default configuration. -/
def testConfig : SunaConfig :=
  { serverUrl := "192.168.1.100", mobilePort := "5000", autoConnect := true }

/-- Connected state with one active chat and an empty log. -/
def testState : SunaState :=
  { config := testConfig
    isConnected := true
    connectionStatus := "Connected"
    messages := []
    currentChatId := some "chat-1"
    isLoading := false
    nextId := 0 }

/-- Connected state with an in-flight dispatch (busy flag set). -/
def busyState : SunaState :=
  { testState with isLoading := true }

/-- Connected state with no active chat yet. -/
def noChatState : SunaState :=
  { testState with currentChatId := none }

/-- Disconnected state. -/
def disconnectedState : SunaState :=
  { testState with isConnected := false, connectionStatus := "Disconnected" }

/-- Oversized message of exactly 10001 characters. -/
def longMsg : String :=
  String.mk (List.replicate 10001 'a')

/-! ## Helper lemmas -/

theorem filter_self_idem {α : Type} (p : α → Bool) (l : List α) :
    (l.filter p).filter p = l.filter p := by
  induction l with
  | nil => rfl
  | cons a t ih => cases h : p a <;> simp [List.filter_cons, h, ih]

theorem addMessage_config (r : Role) (c : String) (st : SunaState) :
    (addMessage r c st).config = st.config := rfl

theorem newChat_failure_eq (net : NewChatNet) (st : SunaState)
    (h : net = .httpError ∨ net = .timeout ∨ net = .netFail) :
    newChat net st = st := by
  rcases h with h | h | h <;> subst h <;>
    rcases hgb : getBaseUrl st.config with _ | u <;> simp [newChat, hgb]

theorem newChat_config (net : NewChatNet) (st : SunaState) :
    (newChat net st).config = st.config := by
  rcases hgb : getBaseUrl st.config with _ | u <;> cases net <;>
    simp [newChat, hgb, addMessage]

theorem lazyState_config (env : SendEnv) (st : SunaState) :
    (lazyState env st).config = st.config := by
  rcases hc : st.currentChatId with _ | cid <;>
    simp [lazyState, hc, newChat_config]

theorem sendOutcome_messages (net : SendNet) (st : SunaState) :
    ∃ m : Message, (sendOutcome net st).1.messages = st.messages ++ [m] := by
  cases net <;> exact ⟨_, rfl⟩

theorem sendOutcome_config (net : SendNet) (st : SunaState) :
    (sendOutcome net st).1.config = st.config := by
  cases net <;> rfl

theorem responseCallbackState_messages (net : MsgsNet) (st : SunaState) :
    ∃ rest, (responseCallbackState net st).messages = st.messages ++ rest := by
  cases net with
  | ok msgs =>
    by_cases he : st.messages.isEmpty
    · have h0 : st.messages = [] := by
        cases hm : st.messages with
        | nil => rfl
        | cons a t => rw [hm] at he; simp [List.isEmpty] at he
      rcases hl : msgs.getLast? with _ | rc
      · refine ⟨[⟨st.nextId, .assistant, "Response received from Suna."⟩], ?_⟩
        simp [responseCallbackState, he, hl, h0, addMessage]
      · rcases rc with ⟨role, content⟩
        by_cases hr : role = "assistant"
        · refine ⟨[⟨st.nextId, .assistant, content⟩], ?_⟩
          simp [responseCallbackState, he, hl, hr, h0, addMessage]
        · refine ⟨[⟨st.nextId, .assistant, "Response received from Suna."⟩], ?_⟩
          simp [responseCallbackState, he, hl, hr, h0, addMessage]
    · refine ⟨[⟨st.nextId, .error, "Failed to get response"⟩], ?_⟩
      simp [responseCallbackState, he, addMessage]
  | okBadJson => exact ⟨_, rfl⟩
  | timeout => exact ⟨_, rfl⟩
  | netFail => exact ⟨_, rfl⟩

theorem sendPhase_run (env : SendEnv) (msg : String) (st : SunaState)
    (u : String) (hconn : st.isConnected = true)
    (hne : (jsTrim msg).isEmpty = false) (hlen : ¬ 10000 < msg.length)
    (hurl : getBaseUrl st.config = some u) :
    sendPhase env msg st =
      ((sendOutcome env.sendNet
          { addMessage .user msg (lazyState env st) with isLoading := true }).1,
       (if st.currentChatId = none then [Request.newChatReq] else [])
         ++ [Request.sendReq st.currentChatId (jsTrim msg)],
       (sendOutcome env.sendNet
          { addMessage .user msg (lazyState env st) with isLoading := true }).2) := by
  rcases hc : st.currentChatId with _ | cid <;>
    simp [sendPhase, lazyState, hconn, hne, hlen, hc, hurl, addMessage,
      newChat_config]

theorem sendMessage_run_ok (env : SendEnv) (msg : String) (st : SunaState)
    (u : String) (hconn : st.isConnected = true)
    (hne : (jsTrim msg).isEmpty = false) (hlen : ¬ 10000 < msg.length)
    (hurl : getBaseUrl st.config = some u) (hok : env.sendNet = .ok) :
    sendMessage env msg st =
      (responseCallbackState env.msgsNet
         (addMessage .system "Suna is thinking..."
            { addMessage .user msg (lazyState env st) with isLoading := true }),
       (if st.currentChatId = none then [Request.newChatReq] else [])
         ++ [Request.sendReq st.currentChatId (jsTrim msg),
             Request.messagesReq st.currentChatId],
       .awaiting) := by
  have hrun := sendPhase_run env msg st u hconn hne hlen hurl
  have hcfg : getBaseUrl (addMessage .system "Suna is thinking..."
      { addMessage .user msg (lazyState env st)
        with isLoading := true }).config = some u := by
    simpa [addMessage, lazyState_config] using hurl
  simp [sendMessage, hrun, hok, sendOutcome, responseCallback, hcfg]

theorem sendMessage_run_fail (env : SendEnv) (msg : String) (st : SunaState)
    (u : String) (hconn : st.isConnected = true)
    (hne : (jsTrim msg).isEmpty = false) (hlen : ¬ 10000 < msg.length)
    (hurl : getBaseUrl st.config = some u) (hnok : env.sendNet ≠ .ok) :
    sendMessage env msg st =
      ((sendOutcome env.sendNet
          { addMessage .user msg (lazyState env st) with isLoading := true }).1,
       (if st.currentChatId = none then [Request.newChatReq] else [])
         ++ [Request.sendReq st.currentChatId (jsTrim msg)],
       .failed) := by
  have hrun := sendPhase_run env msg st u hconn hne hlen hurl
  cases hs : env.sendNet
  case ok => exact absurd hs hnok
  all_goals rw [hs] at hrun; simp [sendMessage, hrun, hs, sendOutcome]

theorem sendMessage_trace_shape (env : SendEnv) (msg : String) (st : SunaState)
    (u : String) (hconn : st.isConnected = true)
    (hne : (jsTrim msg).isEmpty = false) (hlen : ¬ 10000 < msg.length)
    (hurl : getBaseUrl st.config = some u) :
    ∃ tr, (sendMessage env msg st).2.1 =
      (if st.currentChatId = none then [Request.newChatReq] else [])
        ++ Request.sendReq st.currentChatId (jsTrim msg) :: tr := by
  by_cases hok : env.sendNet = .ok
  · refine ⟨[Request.messagesReq st.currentChatId], ?_⟩
    rw [sendMessage_run_ok env msg st u hconn hne hlen hurl hok]
  · refine ⟨[], ?_⟩
    rw [sendMessage_run_fail env msg st u hconn hne hlen hurl hok]

theorem sendMessage_echo_shape (env : SendEnv) (msg : String) (st : SunaState)
    (hconn : st.isConnected = true) (hne : (jsTrim msg).isEmpty = false)
    (hlen : ¬ 10000 < msg.length) :
    ∃ rest, (sendMessage env msg st).1.messages =
      (lazyState env st).messages
        ++ Message.mk (lazyState env st).nextId .user msg :: rest := by
  rcases hurl : getBaseUrl st.config with _ | u
  · rcases hc : st.currentChatId with _ | cid <;>
      refine ⟨[⟨(lazyState env st).nextId + 1, .error, "Failed to send message"⟩], ?_⟩ <;>
      simp [sendMessage, sendPhase, lazyState, hconn, hne, hlen, hc, hurl,
        addMessage, newChat_config]
  · by_cases hok : env.sendNet = .ok
    · obtain ⟨rest2, hr2⟩ := responseCallbackState_messages env.msgsNet
        (addMessage .system "Suna is thinking..."
          { addMessage .user msg (lazyState env st) with isLoading := true })
      refine ⟨⟨(lazyState env st).nextId + 1, .system, "Suna is thinking..."⟩ :: rest2, ?_⟩
      rw [sendMessage_run_ok env msg st u hconn hne hlen hurl hok]
      rw [show (responseCallbackState env.msgsNet
         (addMessage .system "Suna is thinking..."
            { addMessage .user msg (lazyState env st) with isLoading := true }),
        (if st.currentChatId = none then [Request.newChatReq] else [])
          ++ [Request.sendReq st.currentChatId (jsTrim msg),
              Request.messagesReq st.currentChatId],
        (DispatchResult.awaiting)).1 = responseCallbackState env.msgsNet
         (addMessage .system "Suna is thinking..."
            { addMessage .user msg (lazyState env st) with isLoading := true }) from rfl]
      rw [hr2]
      simp [addMessage]
    · obtain ⟨m, hm⟩ := sendOutcome_messages env.sendNet
        { addMessage .user msg (lazyState env st) with isLoading := true }
      refine ⟨[m], ?_⟩
      rw [sendMessage_run_fail env msg st u hconn hne hlen hurl hok]
      simp only []
      rw [show ((sendOutcome env.sendNet
          { addMessage .user msg (lazyState env st) with isLoading := true }).1,
        (if st.currentChatId = none then [Request.newChatReq] else [])
          ++ [Request.sendReq st.currentChatId (jsTrim msg)],
        (DispatchResult.failed)).1 = (sendOutcome env.sendNet
          { addMessage .user msg (lazyState env st) with isLoading := true }).1 from rfl]
      rw [hm]
      simp [addMessage]

/-! ## Claim theorems -/

/-- C9: the host and port sanitization functions are idempotent —
sanitizing an already-sanitized string is a no-op. -/
theorem clean_sanitization_idempotent (s : String) :
    cleanServer (cleanServer s) = cleanServer s ∧
      cleanPort (cleanPort s) = cleanPort s := by
  refine ⟨?_, ?_⟩
  · show String.mk ((s.data.filter _).filter _) = String.mk (s.data.filter _)
    rw [filter_self_idem]
  · show String.mk ((s.data.filter _).filter _) = String.mk (s.data.filter _)
    rw [filter_self_idem]

/-- C10: a sendMessage call while isConnected is false returns without
issuing any network request and leaves the message log, the session id
and the busy flag unchanged. -/
theorem sendMessage_disconnected_frame (env : SendEnv) (msg : String)
    (st : SunaState) (h : st.isConnected = false) :
    (sendMessage env msg st).2.1 = [] ∧
      (sendMessage env msg st).1.messages = st.messages ∧
      (sendMessage env msg st).1.currentChatId = st.currentChatId ∧
      (sendMessage env msg st).1.isLoading = st.isLoading := by
  simp [sendMessage, sendPhase, h]

/-- Witness for C10 at a concrete disconnected state. -/
theorem sendMessage_disconnected_frame_witness :
    disconnectedState.isConnected = false ∧
      ((sendMessage ⟨.ok none, .ok, .ok []⟩ "hello" disconnectedState).2.1 = [] ∧
        (sendMessage ⟨.ok none, .ok, .ok []⟩ "hello" disconnectedState).1.messages
          = disconnectedState.messages ∧
        (sendMessage ⟨.ok none, .ok, .ok []⟩ "hello" disconnectedState).1.currentChatId
          = disconnectedState.currentChatId ∧
        (sendMessage ⟨.ok none, .ok, .ok []⟩ "hello" disconnectedState).1.isLoading
          = disconnectedState.isLoading) :=
  ⟨rfl, sendMessage_disconnected_frame ⟨.ok none, .ok, .ok []⟩ "hello"
    disconnectedState rfl⟩

/-- C7: a newChat call that fails — non-2xx response, timeout or transport
error — leaves the whole state unchanged: the prior session id and the
message log are untouched and no error message is appended. -/
theorem newChat_failure_frame (net : NewChatNet) (st : SunaState)
    (h : net = .httpError ∨ net = .timeout ∨ net = .netFail) :
    newChat net st = st :=
  newChat_failure_eq net st h

/-- Witness for C7 at a concrete non-2xx failure. -/
theorem newChat_failure_frame_witness :
    (NewChatNet.httpError = .httpError ∨ NewChatNet.httpError = .timeout ∨
        NewChatNet.httpError = .netFail) ∧
      newChat .httpError testState = testState :=
  ⟨Or.inl rfl, newChat_failure_frame .httpError testState (Or.inl rfl)⟩

/-- C8: when the transport check returns 2xx and the agent health body
parses, the probe ends with isConnected true and the status label is
"Connected to Suna" exactly when the status field equals "connected",
and "Mobile connected, Suna offline" for any other value. -/
theorem checkConnection_status_mapping (st : SunaState)
    (status : Option String) (u : String)
    (hurl : getBaseUrl st.config = some u) :
    (checkConnection ⟨.resp true, .resp status⟩ st).isConnected = true ∧
      (checkConnection ⟨.resp true, .resp status⟩ st).connectionStatus =
        (if status = some "connected" then "Connected to Suna"
         else "Mobile connected, Suna offline") := by
  by_cases hs : status = some "connected" <;>
    simp [checkConnection, hurl, hs]

/-- Witness for C8 at the degraded scenario: agent status "starting". -/
theorem checkConnection_status_mapping_witness :
    getBaseUrl testState.config = some "http://192.168.1.100:5000" ∧
      ((checkConnection ⟨.resp true, .resp (some "starting")⟩ testState).isConnected
          = true ∧
        (checkConnection ⟨.resp true, .resp (some "starting")⟩
            testState).connectionStatus =
          (if (some "starting" : Option String) = some "connected" then
            "Connected to Suna" else "Mobile connected, Suna offline")) :=
  ⟨by decide, checkConnection_status_mapping testState (some "starting")
    "http://192.168.1.100:5000" (by decide)⟩

/-- C5: when connected, a message that is empty after trimming or longer
than 10000 characters is rejected by a validation check: the state is
unchanged and no network request is issued. -/
theorem sendMessage_validation_rejects (env : SendEnv) (msg : String)
    (st : SunaState) (hconn : st.isConnected = true)
    (hbad : (jsTrim msg).isEmpty = true ∨ 10000 < msg.length) :
    (sendMessage env msg st).1 = st ∧ (sendMessage env msg st).2.1 = [] ∧
      ((sendMessage env msg st).2.2 = .rejectedEmpty ∨
        (sendMessage env msg st).2.2 = .rejectedTooLong) := by
  by_cases he : (jsTrim msg).isEmpty
  · simp [sendMessage, sendPhase, hconn, he]
  · rcases hbad with h | h
    · exact absurd h he
    · simp [sendMessage, sendPhase, hconn, he, h]

/-- Witness for C5 at the oversized-message scenario: 10001 characters. -/
theorem sendMessage_validation_rejects_witness :
    testState.isConnected = true ∧
      ((jsTrim longMsg).isEmpty = true ∨ 10000 < longMsg.length) ∧
      ((sendMessage ⟨.ok none, .ok, .ok []⟩ longMsg testState).1 = testState ∧
        (sendMessage ⟨.ok none, .ok, .ok []⟩ longMsg testState).2.1 = [] ∧
        ((sendMessage ⟨.ok none, .ok, .ok []⟩ longMsg testState).2.2
            = .rejectedEmpty ∨
          (sendMessage ⟨.ok none, .ok, .ok []⟩ longMsg testState).2.2
            = .rejectedTooLong)) :=
  by
  have hl : 10000 < longMsg.length := by
    have h1 : longMsg.length = 10001 := List.length_replicate 10001 'a'
    omega
  exact ⟨rfl, Or.inr hl,
    sendMessage_validation_rejects ⟨.ok none, .ok, .ok []⟩ longMsg testState rfl
      (Or.inr hl)⟩

/-- C4 counterexample: the transport check succeeds but the agent check
times out, and the probe ends Disconnected with isConnected false — below
TransportOnly, refuting the claim that a fault in the second check never
downgrades the result. -/
theorem checkConnection_agent_fault_cex :
    (checkConnection ⟨.resp true, .timeout⟩ testState).isConnected = false ∧
      (checkConnection ⟨.resp true, .timeout⟩ testState).connectionStatus
        = "Disconnected" := by decide

/-- C4 (amended): when the transport check succeeds but the agent check
times out, fails, or returns an unparseable body, the shared catch
handler downgrades the probe to Disconnected with isConnected false;
TransportOnly is reached only when the agent body parses with a status
other than "connected". -/
theorem checkConnection_agent_fault_disconnects (st : SunaState)
    (suna : SunaHealthNet) (u : String)
    (hurl : getBaseUrl st.config = some u)
    (hf : suna = .timeout ∨ suna = .netFail ∨ suna = .respBadJson) :
    (checkConnection ⟨.resp true, suna⟩ st).isConnected = false ∧
      (checkConnection ⟨.resp true, suna⟩ st).connectionStatus
        = "Disconnected" := by
  rcases hf with h | h | h <;> subst h <;>
    simp [checkConnection, hurl, setDisconnected]

/-- Witness for the amended C4 at a concrete network failure of the agent
check. -/
theorem checkConnection_agent_fault_disconnects_witness :
    getBaseUrl testState.config = some "http://192.168.1.100:5000" ∧
      ((checkConnection ⟨.resp true, .netFail⟩ testState).isConnected = false ∧
        (checkConnection ⟨.resp true, .netFail⟩ testState).connectionStatus
          = "Disconnected") :=
  ⟨by decide, checkConnection_agent_fault_disconnects testState .netFail
    "http://192.168.1.100:5000" (by decide) (Or.inr (Or.inl rfl))⟩

/-- C1 counterexample: a sendMessage call while isLoading is true is not
rejected — it appends the user message to the log and issues the send
request, refuting the claimed busy guard. -/
theorem sendMessage_busy_not_rejected_cex :
    busyState.isLoading = true ∧
      (sendMessage ⟨.ok none, .ok, .ok []⟩ "hello" busyState).2.1
        = [Request.sendReq (some "chat-1") "hello",
           Request.messagesReq (some "chat-1")] ∧
      Message.mk 0 .user "hello" ∈
        (sendMessage ⟨.ok none, .ok, .ok []⟩ "hello" busyState).1.messages := by
  decide

/-- C1 (amended): sendMessage performs no busy check — a call while
isLoading is true proceeds exactly like any other call: when connected,
valid and with a valid config, the user message is appended and the send
request is issued. -/
theorem sendMessage_no_busy_guard (env : SendEnv) (msg : String)
    (st : SunaState) (u : String) (hbusy : st.isLoading = true)
    (hconn : st.isConnected = true) (hne : (jsTrim msg).isEmpty = false)
    (hlen : ¬ 10000 < msg.length) (hurl : getBaseUrl st.config = some u) :
    Request.sendReq st.currentChatId (jsTrim msg)
        ∈ (sendMessage env msg st).2.1 ∧
      ∃ m ∈ (sendMessage env msg st).1.messages,
        m.role = .user ∧ m.content = msg := by
  constructor
  · obtain ⟨tr, htr⟩ := sendMessage_trace_shape env msg st u hconn hne hlen hurl
    rw [htr]; simp
  · obtain ⟨rest, hm⟩ := sendMessage_echo_shape env msg st hconn hne hlen
    rw [hm]
    exact ⟨⟨(lazyState env st).nextId, .user, msg⟩, by simp, rfl, rfl⟩

/-- Witness for the amended C1 at a concrete busy state. -/
theorem sendMessage_no_busy_guard_witness :
    busyState.isLoading = true ∧ busyState.isConnected = true ∧
      (jsTrim "hi").isEmpty = false ∧ ¬ 10000 < ("hi" : String).length ∧
      getBaseUrl busyState.config = some "http://192.168.1.100:5000" ∧
      (Request.sendReq busyState.currentChatId (jsTrim "hi")
          ∈ (sendMessage ⟨.ok none, .ok, .ok []⟩ "hi" busyState).2.1 ∧
        ∃ m ∈ (sendMessage ⟨.ok none, .ok, .ok []⟩ "hi" busyState).1.messages,
          m.role = .user ∧ m.content = "hi") :=
  ⟨rfl, rfl, by decide, by decide, by decide,
    sendMessage_no_busy_guard ⟨.ok none, .ok, .ok []⟩ "hi" busyState
      "http://192.168.1.100:5000" rfl rfl (by decide) (by decide) (by decide)⟩

/-- C3 counterexample: with a null session id and a failing newChat, the
dispatch is not aborted — the session creation leaves the state unchanged
(the second conjunct), yet the user message is appended and the send
request is issued anyway, with the stale null chat id. -/
theorem sendMessage_session_failure_cex :
    noChatState.currentChatId = none ∧
      newChat .netFail noChatState = noChatState ∧
      (sendMessage ⟨.netFail, .ok, .ok []⟩ "hello" noChatState).2.1
        = [Request.newChatReq, Request.sendReq none "hello",
           Request.messagesReq none] ∧
      Message.mk 0 .user "hello" ∈
        (sendMessage ⟨.netFail, .ok, .ok []⟩ "hello" noChatState).1.messages := by
  decide

/-- C3 (amended): with a null session id, newChat is invoked before the
send — its request precedes the send request in the trace — but a newChat
failure does not abort the dispatch: the user message is still appended
and the send request is still issued, with the stale null chat id. -/
theorem sendMessage_session_failure_no_abort (env : SendEnv) (msg : String)
    (st : SunaState) (u : String) (hnull : st.currentChatId = none)
    (hconn : st.isConnected = true) (hne : (jsTrim msg).isEmpty = false)
    (hlen : ¬ 10000 < msg.length) (hurl : getBaseUrl st.config = some u)
    (hfail : env.newChatNet = .httpError ∨ env.newChatNet = .timeout ∨
      env.newChatNet = .netFail) :
    (∃ tr, (sendMessage env msg st).2.1
        = Request.newChatReq :: Request.sendReq none (jsTrim msg) :: tr) ∧
      ∃ rest, (sendMessage env msg st).1.messages
        = st.messages ++ Message.mk st.nextId .user msg :: rest := by
  have hlz : lazyState env st = st := by
    simp [lazyState, hnull, newChat_failure_eq env.newChatNet st hfail]
  constructor
  · obtain ⟨tr, htr⟩ := sendMessage_trace_shape env msg st u hconn hne hlen hurl
    refine ⟨tr, ?_⟩
    rw [htr, hnull]
    simp
  · obtain ⟨rest, hm⟩ := sendMessage_echo_shape env msg st hconn hne hlen
    exact ⟨rest, by rw [hm, hlz]⟩

/-- Witness for the amended C3 at a concrete non-2xx creation failure. -/
theorem sendMessage_session_failure_no_abort_witness :
    noChatState.currentChatId = none ∧ noChatState.isConnected = true ∧
      (jsTrim "hi").isEmpty = false ∧ ¬ 10000 < ("hi" : String).length ∧
      getBaseUrl noChatState.config = some "http://192.168.1.100:5000" ∧
      ((∃ tr, (sendMessage ⟨.httpError, .timeout, .ok []⟩ "hi" noChatState).2.1
          = Request.newChatReq :: Request.sendReq none (jsTrim "hi") :: tr) ∧
        ∃ rest, (sendMessage ⟨.httpError, .timeout, .ok []⟩ "hi"
            noChatState).1.messages
          = noChatState.messages
              ++ Message.mk noChatState.nextId .user "hi" :: rest) :=
  ⟨rfl, rfl, by decide, by decide, by decide,
    sendMessage_session_failure_no_abort ⟨.httpError, .timeout, .ok []⟩ "hi"
      noChatState "http://192.168.1.100:5000" rfl rfl (by decide) (by decide)
      (by decide) (Or.inl rfl)⟩

/-- C6 counterexample: the optimistic echo is appended untrimmed — for
input " hi " the only user message in the final log has content " hi ",
while the request body carries the trimmed "hi". -/
theorem sendMessage_echo_untrimmed_cex :
    ((sendMessage ⟨.ok none, .ok, .ok []⟩ " hi " testState).1.messages.filter
        (fun m => m.role == Role.user)).map Message.content = [" hi "] ∧
      jsTrim " hi " = "hi" ∧
      (sendMessage ⟨.ok none, .ok, .ok []⟩ " hi " testState).2.1
        = [Request.sendReq (some "chat-1") "hi",
           Request.messagesReq (some "chat-1")] := by
  decide

/-- C6 (amended): during a dispatch the user content is appended untrimmed
as a user message (only the request body carries the trimmed content),
and the log up to and including this echo is a prefix of the final log:
once appended, the echo is never removed or mutated by any later branch —
failures append separate error messages after it. -/
theorem sendMessage_echo_durable (env : SendEnv) (msg : String)
    (st : SunaState) (hconn : st.isConnected = true)
    (hne : (jsTrim msg).isEmpty = false) (hlen : ¬ 10000 < msg.length) :
    ∃ rest, (sendMessage env msg st).1.messages =
      (lazyState env st).messages
        ++ Message.mk (lazyState env st).nextId .user msg :: rest :=
  sendMessage_echo_shape env msg st hconn hne hlen

/-- Witness for the amended C6 at a concrete failing send. -/
theorem sendMessage_echo_durable_witness :
    testState.isConnected = true ∧ (jsTrim " hi ").isEmpty = false ∧
      ¬ 10000 < (" hi " : String).length ∧
      ∃ rest, (sendMessage ⟨.ok none, .httpError none, .ok []⟩ " hi "
          testState).1.messages =
        (lazyState ⟨.ok none, .httpError none, .ok []⟩ testState).messages
          ++ Message.mk
              (lazyState ⟨.ok none, .httpError none, .ok []⟩ testState).nextId
              .user " hi " :: rest :=
  ⟨rfl, by decide, by decide,
    sendMessage_echo_durable ⟨.ok none, .httpError none, .ok []⟩ " hi "
      testState rfl (by decide) (by decide)⟩

/-- C2: evaluation at the failing inputs — for an accepted dispatch (the
result is awaiting, so the placeholder was appended), the placeholder is
still present in the final log in each of the three terminal branches of
the response callback: resolved fetch, fetch timeout and fetch error.
The code never removes it. -/
theorem sendMessage_placeholder_never_removed :
    ((sendMessage ⟨.ok none, .ok, .ok [("assistant", "hi")]⟩ "hello"
          testState).2.2 = .awaiting ∧
      Message.mk 1 .system "Suna is thinking..." ∈
        (sendMessage ⟨.ok none, .ok, .ok [("assistant", "hi")]⟩ "hello"
          testState).1.messages) ∧
    ((sendMessage ⟨.ok none, .ok, .timeout⟩ "hello" testState).2.2
        = .awaiting ∧
      Message.mk 1 .system "Suna is thinking..." ∈
        (sendMessage ⟨.ok none, .ok, .timeout⟩ "hello" testState).1.messages) ∧
    ((sendMessage ⟨.ok none, .ok, .netFail⟩ "hello" testState).2.2
        = .awaiting ∧
      Message.mk 1 .system "Suna is thinking..." ∈
        (sendMessage ⟨.ok none, .ok, .netFail⟩ "hello" testState).1.messages) := by
  decide
